import Mathlib

/-!
Verification of the hyp3rd/observe runtime lifecycle manager.

Shallow embedding of the components under scrutiny:
  * `pkg/config` (the slices of `Config` the verified components read),
  * `pkg/runtime` (`samplerFromConfig`, `spanExporterWithStats.ExportSpans`,
    `exporterBundle.shutdown`, `Runtime.Shutdown`, `runtime.New`,
    `Runtime.Snapshot`, `MetricsState`),
  * `pkg/observe` (`Client.reloadRuntime`, `Client.swapRuntime`,
    `Client.watchLoop` debounce state machine).

External fallible collaborators (config loading, OTLP exporter construction,
instrumentation helper construction, sub-resource shutdown) are represented by
explicit result parameters; reference identity of Go pointers is represented by
natural-number reference ids; `time.Time` is represented by an integer clock;
the float64 sampling argument is represented by a rational number (all float64
values compared by the code in `(0,1]` are rationals and the comparisons
coincide).
-/

namespace Observe

/-! ### Configuration model (pkg/config)

Only the fields read by the verified components are carried. -/

/-- `config.ServiceConfig`: identity attributes used by resource building and
the diagnostics snapshot. -/
structure ServiceConfig where
  name : String
  version : String
  environment : String
  deriving DecidableEq

/-- `config.SamplingConfig`: sampling mode plus the ratio argument
(float64 in Go, represented as a rational). -/
structure SamplingConfig where
  mode : String
  argument : ℚ
  deriving DecidableEq

/-- `config.InstrumentationConfig`: the per-module `Enabled` toggles read by
`runtime.New` and `Runtime.InitMetrics`. -/
structure InstrumentationConfig where
  httpEnabled : Bool
  grpcEnabled : Bool
  sqlEnabled : Bool
  messagingEnabled : Bool
  workerEnabled : Bool
  runtimeMetricsEnabled : Bool
  deriving DecidableEq

/-- The slice of `config.Config` read by the runtime builder and the snapshot:
service identity, sampling, the OTLP endpoint (`none` models a nil
`cfg.Exporters.OTLP` pointer), instrumentation toggles, diagnostics toggle. -/
structure Config where
  service : ServiceConfig
  sampling : SamplingConfig
  otlpEndpoint : Option String
  instrumentation : InstrumentationConfig
  diagnosticsEnabled : Bool
  deriving DecidableEq

/-! ### Sampler construction (pkg/runtime samplerFromConfig) -/

/-- The sampler values `samplerFromConfig` can build out of the SDK
constructors it calls. -/
inductive Sampler
  | alwaysOn
  | alwaysOff
  | parentBased (base : Sampler)
  | traceIDRatioBased (ratio : ℚ)
  deriving DecidableEq

/-- `samplerFromConfig` (pkg/runtime): switch on `cfg.Mode`; `trace_id_ratio`
requires `cfg.Argument` in `(0,1]` (the Go guard is
`cfg.Argument <= 0 || cfg.Argument > 1`); any other mode is unsupported. -/
def samplerFromConfig (cfg : SamplingConfig) : Except String Sampler :=
  match cfg.mode with
  | "always_on" => .ok .alwaysOn
  | "always_off" => .ok .alwaysOff
  | "parentbased_always_on" => .ok (.parentBased .alwaysOn)
  | "parentbased_always_off" => .ok (.parentBased .alwaysOff)
  | "trace_id_ratio" =>
      if cfg.argument ≤ 0 ∨ 1 < cfg.argument then
        .error "sampling.argument must be within (0,1]"
      else
        .ok (.parentBased (.traceIDRatioBased cfg.argument))
  | _ => .error "unsupported sampling mode"

/-! ### Trace exporter stats and the stats-wrapping span exporter
(pkg/runtime exporters.go) -/

/-- `exporterError` (pkg/runtime): the message and UTC timestamp stored by
`recordError`. -/
structure ExporterError where
  message : String
  time : ℤ
  deriving DecidableEq

/-- `traceExporterStats` (pkg/runtime): queue limit, monotonic dropped
counter, protocol, endpoint, and the most recent export error. -/
structure TraceExporterStats where
  queueLimit : ℤ
  dropped : ℤ
  protocol : String
  endpoint : String
  lastError : Option ExporterError
  deriving DecidableEq

/-- `traceExporterStats.recordDrop`: adds `n` to the dropped counter unless
`n <= 0`. -/
def recordDrop (s : TraceExporterStats) (n : ℤ) : TraceExporterStats :=
  if n ≤ 0 then s else { s with dropped := s.dropped + n }

/-- `traceExporterStats.recordError`: a nil error is ignored; otherwise the
last-error slot is overwritten with the message and the current UTC time. -/
def recordError (s : TraceExporterStats) (err : Option String) (now : ℤ) :
    TraceExporterStats :=
  match err with
  | none => s
  | some msg => { s with lastError := some ⟨msg, now⟩ }

/-- `spanExporterWithStats.ExportSpans`: forwards the batch to the inner
exporter (outcome `innerResult`, `none` = success, `some msg` = failure on a
batch of `spans` spans at time `now`); on failure records the drop and the
error, then re-raises the wrapped failure. Returns the updated stats and the
error returned to the caller. -/
def exportSpans (stats : TraceExporterStats) (spans : ℕ)
    (innerResult : Option String) (now : ℤ) :
    TraceExporterStats × Option String :=
  match innerResult with
  | none => (stats, none)
  | some msg =>
      (recordError (recordDrop stats (spans : ℤ)) (some msg) now,
       some ("export spans: " ++ msg))

/-! ### ExporterBundle shutdown (pkg/runtime exporterBundle.shutdown) -/

/-- The sub-resources owned by an `exporterBundle`, in the order its
`shutdown` visits them. -/
inductive BundleResource
  | metricReader
  | metricExporter
  | traceExporter
  deriving DecidableEq

/-- The state a bundle shutdown runs against: which sub-resources are non-nil
and what each one's `Shutdown(ctx)` returns (`none` = success). -/
structure BundleShutdownEnv where
  metricReaderPresent : Bool
  metricReaderErr : Option String
  metricExporterPresent : Bool
  metricExporterErr : Option String
  traceExporterPresent : Bool
  traceExporterErr : Option String

/-- `errors.Join`: nil when no error was collected, otherwise the joined
errors. -/
def joinErrors (errs : List String) : Option String :=
  if errs = [] then none else some (String.intercalate "; " errs)

/-- `exporterBundle.shutdown`: attempts the metric reader, then the metric
exporter, then the trace exporter (each when non-nil), appending every
resulting error to `errs`, and returns the attempted resources in order
together with `errors.Join(errs...)`. -/
def bundleShutdown (b : BundleShutdownEnv) :
    List BundleResource × List String :=
  let readerAttempt := if b.metricReaderPresent then
    [BundleResource.metricReader] else []
  let readerErrs := if b.metricReaderPresent then
    b.metricReaderErr.toList else []
  let metricAttempt := if b.metricExporterPresent then
    [BundleResource.metricExporter] else []
  let metricErrs := if b.metricExporterPresent then
    b.metricExporterErr.toList else []
  let traceAttempt := if b.traceExporterPresent then
    [BundleResource.traceExporter] else []
  let traceErrs := if b.traceExporterPresent then
    b.traceExporterErr.toList else []
  (readerAttempt ++ metricAttempt ++ traceAttempt,
   readerErrs ++ metricErrs ++ traceErrs)

/-- The joined error `exporterBundle.shutdown` returns. -/
def bundleShutdownError (b : BundleShutdownEnv) : Option String :=
  joinErrors (bundleShutdown b).2

/-! ### Runtime (pkg/runtime Runtime, New, InitMetrics, Shutdown, Snapshot) -/

/-- The `exporterBundle` fields `Runtime.Snapshot` reads (`traceStats` may be
nil in hand-built runtimes; `newExporterBundle` always sets it). -/
structure RuntimeExporterBundle where
  traceStats : Option TraceExporterStats
  deriving DecidableEq

/-- `runtime.Runtime`: the configuration snapshot, presence of each owned
sub-resource (a `Bool`/`Option` models the corresponding non-nil pointer),
start and last-reload clock readings, the `sync.Once` consumption flag, the
`state.shutdown` flag, and the attached `MetricsState` counter value. -/
structure Runtime where
  cfg : Config
  hasTracerProvider : Bool
  hasMeterProvider : Bool
  exporters : Option RuntimeExporterBundle
  httpMiddleware : Bool
  grpcInterceptors : Bool
  sqlHelper : Bool
  messagingHelper : Bool
  workerHelper : Bool
  metricsController : Bool
  diagServer : Bool
  startTime : ℤ
  lastReload : ℤ
  onceDone : Bool
  shutdownFlag : Bool
  metricsReloads : Option ℤ
  deriving DecidableEq

/-- The sub-resources `Runtime.Shutdown` owns, in the order its once-body
visits them. -/
inductive RuntimeResource
  | tracerProvider
  | meterProvider
  | exporters
  | metricsController
  | diagServer
  deriving DecidableEq

/-- Which sub-resources a runtime owns (the non-nil checks of the
`Runtime.Shutdown` once-body). -/
def ownsResource (r : Runtime) : RuntimeResource → Bool
  | .tracerProvider => r.hasTracerProvider
  | .meterProvider => r.hasMeterProvider
  | .exporters => r.exporters.isSome
  | .metricsController => r.metricsController
  | .diagServer => r.diagServer

/-- Outcomes of the owned sub-resources' `Shutdown` calls (`none` =
success). -/
structure RuntimeShutdownEnv where
  tracerErr : Option String
  meterErr : Option String
  exportersErr : Option String
  metricsErr : Option String
  diagErr : Option String

/-- `Runtime.Shutdown`: the `sync.Once` body runs only on the first call; it
shuts down the tracer provider, meter provider, exporter bundle, runtime
metrics controller, and diagnostics server (each when present), joins the
collected errors, and marks `state.shutdown`. Later calls run nothing and
return nil. Returns the new runtime, the returned error, and the attempted
sub-resources. -/
def runtimeShutdown (env : RuntimeShutdownEnv) (r : Runtime) :
    Runtime × Option String × List RuntimeResource :=
  if r.onceDone then (r, none, [])
  else
    let attempts :=
      (if r.hasTracerProvider then [RuntimeResource.tracerProvider] else []) ++
      (if r.hasMeterProvider then [RuntimeResource.meterProvider] else []) ++
      (if r.exporters.isSome then [RuntimeResource.exporters] else []) ++
      (if r.metricsController then [RuntimeResource.metricsController] else []) ++
      (if r.diagServer then [RuntimeResource.diagServer] else [])
    let errs :=
      (if r.hasTracerProvider then env.tracerErr.toList else []) ++
      (if r.hasMeterProvider then env.meterErr.toList else []) ++
      (if r.exporters.isSome then env.exportersErr.toList else []) ++
      (if r.metricsController then env.metricsErr.toList else []) ++
      (if r.diagServer then env.diagErr.toList else [])
    ({ r with onceDone := true, shutdownFlag := true },
     (joinErrors errs).map (fun e => "shutdown runtime: " ++ e),
     attempts)

/-- `Runtime.InitMetrics`: a no-op unless runtime metrics are enabled in the
configuration; otherwise attaches the shared `MetricsState` (carrying counter
value `stateReloads`) and starts the metrics controller, whose start outcome
is `startResult`. -/
def initMetrics (r : Runtime) (stateReloads : ℤ)
    (startResult : Except String Unit) : Except String Runtime :=
  if r.cfg.instrumentation.runtimeMetricsEnabled then
    match startResult with
    | .error e => .error e
    | .ok _ => .ok { r with metricsReloads := some stateReloads,
                            metricsController := true }
  else
    .ok r

/-- The construction steps of `runtime.New`, in program order. -/
inductive NewEffect
  | buildExporters
  | buildResource
  | buildTracerProvider
  | buildMeterProvider
  | setGlobalTracerProvider
  | setGlobalMeterProvider
  | initHTTP
  | initGRPC
  | initSQL
  | initMessaging
  | initWorker
  | startDiagnostics
  deriving DecidableEq

/-- Outcomes of the external collaborators `runtime.New` calls: OTLP exporter
bundle construction, resource detection, instrumentation helper constructors,
diagnostics server start, and the wall clock read for `startTime`. -/
structure NewEnv where
  exportersResult : Except String RuntimeExporterBundle
  resourceResult : Except String Unit
  httpResult : Except String Unit
  messagingResult : Except String Unit
  workerResult : Except String Unit
  diagResult : Except String Unit
  now : ℤ

/-- The fresh `Runtime` record `runtime.New` assembles right after building
the providers: `startTime` is the wall clock reading and `lastReload` is set
to `startTime`. -/
def newRuntimeRecord (env : NewEnv) (cfg : Config)
    (bundle : RuntimeExporterBundle) : Runtime :=
  { cfg := cfg, hasTracerProvider := true, hasMeterProvider := true,
    exporters := some bundle, httpMiddleware := false,
    grpcInterceptors := false, sqlHelper := false, messagingHelper := false,
    workerHelper := false, metricsController := false, diagServer := false,
    startTime := env.now, lastReload := env.now, onceDone := false,
    shutdownFlag := false, metricsReloads := none }

/-- The `cfg.Instrumentation.HTTP.Enabled` block of `runtime.New`: build the
HTTP middleware; a failure aborts the construction. -/
def newHTTPStep (env : NewEnv) (cfg : Config) (rt : Runtime) :
    Except String Runtime × List NewEffect :=
  if cfg.instrumentation.httpEnabled then
    match env.httpResult with
    | .error e => (.error ("init http instrumentation: " ++ e), [.initHTTP])
    | .ok _ => (.ok { rt with httpMiddleware := true }, [.initHTTP])
  else (.ok rt, [])

/-- The `cfg.Instrumentation.GRPC.Enabled` block of `runtime.New`:
interceptor construction cannot fail. -/
def newGRPCStep (cfg : Config) (rt : Runtime) : Runtime × List NewEffect :=
  if cfg.instrumentation.grpcEnabled then
    ({ rt with grpcInterceptors := true }, [.initGRPC])
  else (rt, [])

/-- The `cfg.Instrumentation.SQL.Enabled` block of `runtime.New`: helper
construction cannot fail. -/
def newSQLStep (cfg : Config) (rt : Runtime) : Runtime × List NewEffect :=
  if cfg.instrumentation.sqlEnabled then
    ({ rt with sqlHelper := true }, [.initSQL])
  else (rt, [])

/-- The `cfg.Instrumentation.Messaging.Enabled` block of `runtime.New`. -/
def newMessagingStep (env : NewEnv) (cfg : Config) (rt : Runtime) :
    Except String Runtime × List NewEffect :=
  if cfg.instrumentation.messagingEnabled then
    match env.messagingResult with
    | .error e =>
        (.error ("init messaging instrumentation: " ++ e), [.initMessaging])
    | .ok _ => (.ok { rt with messagingHelper := true }, [.initMessaging])
  else (.ok rt, [])

/-- The `cfg.Instrumentation.Worker.Enabled` block of `runtime.New`. -/
def newWorkerStep (env : NewEnv) (cfg : Config) (rt : Runtime) :
    Except String Runtime × List NewEffect :=
  if cfg.instrumentation.workerEnabled then
    match env.workerResult with
    | .error e =>
        (.error ("init worker instrumentation: " ++ e), [.initWorker])
    | .ok _ => (.ok { rt with workerHelper := true }, [.initWorker])
  else (.ok rt, [])

/-- The `cfg.Diagnostics.Enabled` block of `runtime.New`: start the
diagnostics server; a bind failure aborts the construction. -/
def newDiagStep (env : NewEnv) (cfg : Config) (rt : Runtime) :
    Except String Runtime × List NewEffect :=
  if cfg.diagnosticsEnabled then
    match env.diagResult with
    | .error e =>
        (.error ("start diagnostics server: " ++ e), [.startDiagnostics])
    | .ok _ => (.ok { rt with diagServer := true }, [.startDiagnostics])
  else (.ok rt, [])

/-- The steps of `runtime.New` after `otel.SetTracerProvider` and
`otel.SetMeterProvider` have run: conditional construction of the HTTP
middleware, gRPC interceptors, SQL helper, messaging helper, worker helper,
and the diagnostics server, in program order; each failure aborts the
construction. -/
def runtimeNewAfterGlobals (env : NewEnv) (cfg : Config)
    (bundle : RuntimeExporterBundle) :
    Except String Runtime × List NewEffect :=
  let rt := newRuntimeRecord env cfg bundle
  match newHTTPStep env cfg rt with
  | (.error e, effH) => (.error e, effH)
  | (.ok rt1, effH) =>
  let grpcStep := newGRPCStep cfg rt1
  let sqlStep := newSQLStep cfg grpcStep.1
  match newMessagingStep env cfg sqlStep.1 with
  | (.error e, effM) => (.error e, effH ++ grpcStep.2 ++ sqlStep.2 ++ effM)
  | (.ok rt4, effM) =>
  match newWorkerStep env cfg rt4 with
  | (.error e, effW) =>
      (.error e, effH ++ grpcStep.2 ++ sqlStep.2 ++ effM ++ effW)
  | (.ok rt5, effW) =>
  match newDiagStep env cfg rt5 with
  | (.error e, effD) =>
      (.error e, effH ++ grpcStep.2 ++ sqlStep.2 ++ effM ++ effW ++ effD)
  | (.ok rt6, effD) =>
      (.ok rt6, effH ++ grpcStep.2 ++ sqlStep.2 ++ effM ++ effW ++ effD)

/-- `runtime.New`: builds the exporter bundle, the resource, the tracer
provider (whose only failure point is `samplerFromConfig`) and the meter
provider; registers both providers as process-wide defaults via
`otel.SetTracerProvider` / `otel.SetMeterProvider`; then runs the remaining
construction steps. Returns the result together with the trace of performed
steps. -/
def runtimeNew (env : NewEnv) (cfg : Config) :
    Except String Runtime × List NewEffect :=
  match env.exportersResult with
  | .error e => (.error ("build exporters: " ++ e), [.buildExporters])
  | .ok bundle =>
  match env.resourceResult with
  | .error e =>
      (.error ("build resource: " ++ e), [.buildExporters, .buildResource])
  | .ok _ =>
  match samplerFromConfig cfg.sampling with
  | .error e =>
      (.error ("build tracer provider: " ++ e),
       [.buildExporters, .buildResource, .buildTracerProvider])
  | .ok _ =>
  let rest := runtimeNewAfterGlobals env cfg bundle
  (rest.1,
   [NewEffect.buildExporters, NewEffect.buildResource,
    NewEffect.buildTracerProvider, NewEffect.buildMeterProvider,
    NewEffect.setGlobalTracerProvider, NewEffect.setGlobalMeterProvider] ++
   rest.2)

/-! ### Diagnostics snapshot (pkg/runtime Runtime.Snapshot) -/

/-- `diagnostics.ExporterStatus`: protocol, endpoint, and optional last
error. -/
structure ExporterStatus where
  protocol : String
  endpoint : String
  lastError : Option ExporterError
  deriving DecidableEq

/-- `traceExporterStats.statusSnapshot`: lower-cased protocol, endpoint, and
the most recent error when one was recorded. -/
def statusSnapshot (s : TraceExporterStats) : ExporterStatus :=
  { protocol := s.protocol.toLower, endpoint := s.endpoint,
    lastError := s.lastError }

/-- `endpointForSnapshot`: empty string when `cfg.Exporters.OTLP` is nil. -/
def endpointForSnapshot (cfg : Config) : String :=
  match cfg.otlpEndpoint with
  | none => ""
  | some e => e

/-- `reloadCount`: zero for a nil `MetricsState`, else its counter. -/
def reloadCount (state : Option ℤ) : ℤ :=
  match state with
  | none => 0
  | some n => n

/-- `exporterStatus`: the trace exporter status, zero-valued when the bundle
or its stats are nil. -/
def exporterStatus (bundle : Option RuntimeExporterBundle) : ExporterStatus :=
  match bundle with
  | none => { protocol := "", endpoint := "", lastError := none }
  | some b =>
    match b.traceStats with
    | none => { protocol := "", endpoint := "", lastError := none }
    | some stats => statusSnapshot stats

/-- `diagnostics.Snapshot`: the fields `Runtime.Snapshot` fills. -/
structure Snapshot where
  serviceName : String
  serviceVersion : String
  environment : String
  samplingMode : String
  exporterEndpoint : String
  startTime : ℤ
  lastReloadTime : ℤ
  instrumentationHTTP : Bool
  instrumentationGRPC : Bool
  instrumentationSQL : Bool
  instrumentationMessaging : Bool
  instrumentationWorker : Bool
  instrumentationRuntimeMetrics : Bool
  configReloadCount : ℤ
  traceQueueLimit : ℤ
  traceDroppedSpans : ℤ
  traceExporterStatus : ExporterStatus
  deriving DecidableEq

/-- `Runtime.Snapshot`: read-locked projection of the runtime into a
diagnostics record; queue limit and dropped count default to zero when the
bundle or its trace stats are nil. -/
def runtimeSnapshot (r : Runtime) : Snapshot :=
  let queueLimit : ℤ :=
    match r.exporters with
    | none => 0
    | some b => match b.traceStats with
      | none => 0
      | some stats => stats.queueLimit
  let droppedSpans : ℤ :=
    match r.exporters with
    | none => 0
    | some b => match b.traceStats with
      | none => 0
      | some stats => stats.dropped
  { serviceName := r.cfg.service.name,
    serviceVersion := r.cfg.service.version,
    environment := r.cfg.service.environment,
    samplingMode := r.cfg.sampling.mode,
    exporterEndpoint := endpointForSnapshot r.cfg,
    startTime := r.startTime,
    lastReloadTime := r.lastReload,
    instrumentationHTTP := r.httpMiddleware,
    instrumentationGRPC := r.grpcInterceptors,
    instrumentationSQL := r.sqlHelper,
    instrumentationMessaging := r.messagingHelper,
    instrumentationWorker := r.workerHelper,
    instrumentationRuntimeMetrics := r.metricsController,
    configReloadCount := reloadCount r.metricsReloads,
    traceQueueLimit := queueLimit,
    traceDroppedSpans := droppedSpans,
    traceExporterStatus := exporterStatus r.exporters }

/-! ### Lifecycle manager (pkg/observe Client.reloadRuntime / swapRuntime)

Runtime references held by the client are represented by natural-number ids:
two states hold the same `*runtime.Runtime` exactly when the ids are equal. -/

/-- The `Client` fields `reloadRuntime` touches: the current runtime
reference, the digest of the last applied configuration, the shared
`MetricsState` reload counter, and the logging adapter reference. -/
structure ClientState where
  runtime : ℕ
  configDigest : String
  metricsReloads : ℤ
  logger : ℕ
  deriving DecidableEq

/-- The externally observable actions of one `reloadRuntime` call. -/
inductive ReloadEffect
  | newRuntimeCall
  | initMetricsCall
  | swap (old new : ℕ)
  | shutdownOld (old : ℕ)
  | incrementReloads
  deriving DecidableEq

/-- Outcomes of the collaborators one `reloadRuntime` call consults:
configuration loading, digest computation, `logging.FromConfig`,
`runtime.New` (returning the reference of the freshly built runtime), and
`rt.InitMetrics`. -/
structure ReloadEnv where
  loadResult : Except String Config
  digestResult : Config → Except String String
  loggerOverride : Bool
  loggerFromConfig : Config → Option ℕ
  newResult : Config → Except String ℕ
  initMetricsResult : ℕ → Except String Unit

/-- `Client.swapRuntime`: exclusive replacement of the current runtime
reference, followed by a bounded shutdown of the superseded instance (the
client's runtime is always non-nil after `Init`). -/
def swapRuntime (s : ClientState) (newRuntime : ℕ) :
    ClientState × List ReloadEffect :=
  ({ s with runtime := newRuntime },
   [.swap s.runtime newRuntime, .shutdownOld s.runtime])

/-- `Client.reloadRuntime`: load the configuration, digest it, skip when the
digest matches the stored one, refresh the logger when not overridden, build
the new runtime, wire its metrics, swap it in, bump the reload counter, and
store the new digest. Every failure aborts the attempt, leaving the state as
it stood. -/
def reloadRuntime (env : ReloadEnv) (s : ClientState) :
    ClientState × List ReloadEffect :=
  match env.loadResult with
  | .error _ => (s, [])
  | .ok cfg =>
  match env.digestResult cfg with
  | .error _ => (s, [])
  | .ok digest =>
  if digest = s.configDigest then (s, [])
  else
  let s1 :=
    if env.loggerOverride then s
    else
      match env.loggerFromConfig cfg with
      | some lg => { s with logger := lg }
      | none => s
  match env.newResult cfg with
  | .error _ => (s1, [.newRuntimeCall])
  | .ok rt =>
  match env.initMetricsResult rt with
  | .error _ => (s1, [.newRuntimeCall, .initMetricsCall])
  | .ok _ =>
  let swapped := swapRuntime s1 rt
  ({ swapped.1 with metricsReloads := swapped.1.metricsReloads + 1,
                    configDigest := digest },
   [ReloadEffect.newRuntimeCall, ReloadEffect.initMetricsCall] ++
   swapped.2 ++ [ReloadEffect.incrementReloads])

/-- The `Client` assembly in `Init`: the boot runtime reference, the digest
of the boot configuration, a fresh `MetricsState` (counter zero — `Init`
never increments it), and the boot logger. -/
def initClient (bootRuntime : ℕ) (bootDigest : String) (bootLogger : ℕ) :
    ClientState :=
  { runtime := bootRuntime, configDigest := bootDigest,
    metricsReloads := 0, logger := bootLogger }

/-! ### Debounced watch loop (pkg/observe Client.watchLoop / resetTimer)

The loop is driven by relevant file events (already filtered to the watched
path and to write/create/rename operations) at integer times. Its state is
the `pending` flag plus the armed timer's deadline. -/

/-- The debounce state of `watchLoop`: the `pending` flag and the deadline
the timer was last reset to. -/
structure WatchState where
  pending : Bool
  deadline : ℤ
  deriving DecidableEq

/-- One relevant file event at time `t` as `watchLoop` handles it. If the
timer was armed and has already expired, its case runs first: a reload fires
at the deadline and `pending` clears. Then the event itself: when the
debounce duration `d` is non-positive the reload fires immediately; otherwise
`pending` is set and `resetTimer` arms the timer to `t + d`. Returns the new
state and the times of the reload attempts fired. -/
def watchStep (d : ℤ) (s : WatchState) (t : ℤ) : WatchState × List ℤ :=
  let fired : WatchState × List ℤ :=
    if s.pending = true ∧ s.deadline ≤ t then
      ({ pending := false, deadline := s.deadline }, [s.deadline])
    else (s, [])
  if d ≤ 0 then (fired.1, fired.2 ++ [t])
  else ({ pending := true, deadline := t + d }, fired.2)

/-- The event-processing part of `watchLoop` over a time-ordered list of
relevant events. -/
def watchEvents (d : ℤ) (s : WatchState) : List ℤ → WatchState × List ℤ
  | [] => (s, [])
  | t :: ts =>
    let first := watchStep d s t
    let rest := watchEvents d first.1 ts
    (rest.1, first.2 ++ rest.2)

/-- A full `watchLoop` run over a finite burst of relevant events, starting
idle, ending with the pending timer (if armed) expiring: the times of all
reload attempts triggered. -/
def watchLoop (d : ℤ) (events : List ℤ) : List ℤ :=
  let run := watchEvents d { pending := false, deadline := 0 } events
  run.2 ++ (if run.1.pending = true then [run.1.deadline] else [])

/-! ### Sample configurations used by the witnesses -/

/-- A concrete configuration used to instantiate the proved theorems. -/
def sampleConfig : Config :=
  { service := { name := "svc", version := "1.0.0", environment := "prod" },
    sampling := { mode := "always_on", argument := 1 },
    otlpEndpoint := some "collector:4317",
    instrumentation :=
      { httpEnabled := true, grpcEnabled := true, sqlEnabled := false,
        messagingEnabled := false, workerEnabled := false,
        runtimeMetricsEnabled := true },
    diagnosticsEnabled := false }

/-- A concrete client state used to instantiate the proved theorems. -/
def sampleClient : ClientState :=
  { runtime := 1, configDigest := "digest-a", metricsReloads := 3,
    logger := 0 }

/-- Concrete trace exporter stats used to instantiate the proved theorems. -/
def sampleTraceStats : TraceExporterStats :=
  { queueLimit := 2048, dropped := 0, protocol := "grpc",
    endpoint := "collector:4317", lastError := none }

/-- A concrete runtime owning every sub-resource, used to instantiate the
proved theorems. -/
def sampleRuntime : Runtime :=
  { cfg := sampleConfig, hasTracerProvider := true, hasMeterProvider := true,
    exporters := some { traceStats := some sampleTraceStats },
    httpMiddleware := true, grpcInterceptors := true, sqlHelper := false,
    messagingHelper := false, workerHelper := false,
    metricsController := true, diagServer := true, startTime := 100,
    lastReload := 100, onceDone := false, shutdownFlag := false,
    metricsReloads := some 0 }

/-! ### Theorems -/

/-- C1: when the digest of the newly loaded configuration equals the stored
digest of the last applied configuration, `reloadRuntime` never calls
`runtime.New`, performs no swap, and returns with the client state — in
particular the current runtime reference — exactly as it stood. -/
theorem reload_skip_on_unchanged_digest (env : ReloadEnv) (s : ClientState)
    (cfg : Config)
    (hload : env.loadResult = .ok cfg)
    (hdigest : env.digestResult cfg = .ok s.configDigest) :
    ReloadEffect.newRuntimeCall ∉ (reloadRuntime env s).2 ∧
    (∀ o n, ReloadEffect.swap o n ∉ (reloadRuntime env s).2) ∧
    (reloadRuntime env s).1.runtime = s.runtime ∧
    reloadRuntime env s = (s, []) := by
  have hrun : reloadRuntime env s = (s, []) := by
    simp [reloadRuntime, hload, hdigest]
  refine ⟨?_, ?_, ?_, hrun⟩ <;> simp [hrun]

/-- Witness for C1 at a concrete environment and state. -/
theorem reload_skip_on_unchanged_digest_witness :
    reloadRuntime
      { loadResult := .ok sampleConfig,
        digestResult := fun _ => .ok "digest-a",
        loggerOverride := false,
        loggerFromConfig := fun _ => none,
        newResult := fun _ => .ok 2,
        initMetricsResult := fun _ => .ok () }
      sampleClient = (sampleClient, []) :=
  (reload_skip_on_unchanged_digest _ sampleClient sampleConfig rfl rfl).2.2.2

/-- C2: every failing reload attempt — configuration load failure, digest
failure, `runtime.New` failure, or `InitMetrics` failure — leaves the current
runtime reference, the stored config digest, and the reload counter exactly
as they were before the call. -/
theorem reload_failure_preserves_state (env : ReloadEnv) (s : ClientState) :
    (∀ e, env.loadResult = .error e → reloadRuntime env s = (s, [])) ∧
    (∀ cfg e, env.loadResult = .ok cfg → env.digestResult cfg = .error e →
      reloadRuntime env s = (s, [])) ∧
    (∀ cfg digest e, env.loadResult = .ok cfg →
      env.digestResult cfg = .ok digest → env.newResult cfg = .error e →
      (reloadRuntime env s).1.runtime = s.runtime ∧
      (reloadRuntime env s).1.configDigest = s.configDigest ∧
      (reloadRuntime env s).1.metricsReloads = s.metricsReloads) ∧
    (∀ cfg digest rt e, env.loadResult = .ok cfg →
      env.digestResult cfg = .ok digest → env.newResult cfg = .ok rt →
      env.initMetricsResult rt = .error e →
      (reloadRuntime env s).1.runtime = s.runtime ∧
      (reloadRuntime env s).1.configDigest = s.configDigest ∧
      (reloadRuntime env s).1.metricsReloads = s.metricsReloads) := by
  refine ⟨?_, ?_, ?_, ?_⟩
  · intro e hload
    simp [reloadRuntime, hload]
  · intro cfg e hload hdigest
    simp [reloadRuntime, hload, hdigest]
  · intro cfg digest e hload hdigest hnew
    by_cases hd : digest = s.configDigest
    · simp [reloadRuntime, hload, hdigest, hd]
    · cases henv : env.loggerOverride <;>
        cases hlg : env.loggerFromConfig cfg <;>
          simp [reloadRuntime, hload, hdigest, hd, hnew, henv, hlg]
  · intro cfg digest rt e hload hdigest hnew hinit
    by_cases hd : digest = s.configDigest
    · simp [reloadRuntime, hload, hdigest, hd]
    · cases henv : env.loggerOverride <;>
        cases hlg : env.loggerFromConfig cfg <;>
          simp [reloadRuntime, hload, hdigest, hd, hnew, hinit, henv, hlg]

/-- Witness for C2 at a concrete failing environment. -/
theorem reload_failure_preserves_state_witness :
    reloadRuntime
      { loadResult := .error "load boom",
        digestResult := fun _ => .ok "digest-b",
        loggerOverride := false,
        loggerFromConfig := fun _ => none,
        newResult := fun _ => .ok 2,
        initMetricsResult := fun _ => .ok () }
      sampleClient = (sampleClient, []) :=
  (reload_failure_preserves_state _ sampleClient).1 "load boom" rfl

/-- C8: the reload counter counts only successful reloads — a completed swap
increments it by exactly one and stores the new digest; a skipped
(unchanged-digest) attempt and every failing attempt leave it unchanged; the
boot-time client starts it at zero; and it never decreases. -/
theorem reload_counter_only_successful (env : ReloadEnv) (s : ClientState) :
    s.metricsReloads ≤ (reloadRuntime env s).1.metricsReloads ∧
    (∀ cfg digest rt, env.loadResult = .ok cfg →
      env.digestResult cfg = .ok digest → digest ≠ s.configDigest →
      env.newResult cfg = .ok rt → env.initMetricsResult rt = .ok () →
      (reloadRuntime env s).1.metricsReloads = s.metricsReloads + 1 ∧
      (reloadRuntime env s).1.configDigest = digest) ∧
    (∀ cfg, env.loadResult = .ok cfg →
      env.digestResult cfg = .ok s.configDigest →
      (reloadRuntime env s).1.metricsReloads = s.metricsReloads) ∧
    (∀ e, env.loadResult = .error e →
      (reloadRuntime env s).1.metricsReloads = s.metricsReloads) ∧
    (∀ cfg e, env.loadResult = .ok cfg → env.digestResult cfg = .error e →
      (reloadRuntime env s).1.metricsReloads = s.metricsReloads) ∧
    (∀ cfg digest e, env.loadResult = .ok cfg →
      env.digestResult cfg = .ok digest → env.newResult cfg = .error e →
      (reloadRuntime env s).1.metricsReloads = s.metricsReloads) ∧
    (∀ cfg digest rt e, env.loadResult = .ok cfg →
      env.digestResult cfg = .ok digest → env.newResult cfg = .ok rt →
      env.initMetricsResult rt = .error e →
      (reloadRuntime env s).1.metricsReloads = s.metricsReloads) ∧
    (∀ rt digest lg, (initClient rt digest lg).metricsReloads = 0) := by
  refine ⟨?_, ?_, ?_, ?_, ?_, ?_, ?_, ?_⟩
  · rcases hl : env.loadResult with e | cfg
    · simp [reloadRuntime, hl]
    rcases hd : env.digestResult cfg with e | digest
    · simp [reloadRuntime, hl, hd]
    by_cases hdd : digest = s.configDigest
    · simp [reloadRuntime, hl, hd, hdd]
    rcases hnew : env.newResult cfg with e | rt
    · cases henv : env.loggerOverride <;>
        cases hlg : env.loggerFromConfig cfg <;>
          simp [reloadRuntime, hl, hd, hdd, hnew, henv, hlg]
    rcases hinit : env.initMetricsResult rt with e | u
    · cases henv : env.loggerOverride <;>
        cases hlg : env.loggerFromConfig cfg <;>
          simp [reloadRuntime, hl, hd, hdd, hnew, hinit, henv, hlg]
    · cases henv : env.loggerOverride <;>
        cases hlg : env.loggerFromConfig cfg <;>
          simp [reloadRuntime, swapRuntime, hl, hd, hdd, hnew, hinit,
                henv, hlg]
  · intro cfg digest rt hload hdigest hdd hnew hinit
    cases henv : env.loggerOverride <;>
      cases hlg : env.loggerFromConfig cfg <;>
        simp [reloadRuntime, swapRuntime, hload, hdigest, hdd, hnew, hinit,
              henv, hlg]
  · intro cfg hload hdigest
    simp [reloadRuntime, hload, hdigest]
  · intro e hload
    simp [reloadRuntime, hload]
  · intro cfg e hload hdigest
    simp [reloadRuntime, hload, hdigest]
  · intro cfg digest e hload hdigest hnew
    by_cases hdd : digest = s.configDigest
    · simp [reloadRuntime, hload, hdigest, hdd]
    cases henv : env.loggerOverride <;>
      cases hlg : env.loggerFromConfig cfg <;>
        simp [reloadRuntime, hload, hdigest, hdd, hnew, henv, hlg]
  · intro cfg digest rt e hload hdigest hnew hinit
    by_cases hdd : digest = s.configDigest
    · simp [reloadRuntime, hload, hdigest, hdd]
    cases henv : env.loggerOverride <;>
      cases hlg : env.loggerFromConfig cfg <;>
        simp [reloadRuntime, hload, hdigest, hdd, hnew, hinit, henv, hlg]
  · intro rt digest lg
    rfl

/-- Witness for C8: a completed swap at a concrete environment increments
the counter from 3 to 4 and stores the new digest. -/
theorem reload_counter_only_successful_witness :
    (reloadRuntime
      { loadResult := .ok sampleConfig,
        digestResult := fun _ => .ok "digest-b",
        loggerOverride := true,
        loggerFromConfig := fun _ => none,
        newResult := fun _ => .ok 2,
        initMetricsResult := fun _ => .ok () }
      sampleClient).1.metricsReloads = 3 + 1 ∧
    (reloadRuntime
      { loadResult := .ok sampleConfig,
        digestResult := fun _ => .ok "digest-b",
        loggerOverride := true,
        loggerFromConfig := fun _ => none,
        newResult := fun _ => .ok 2,
        initMetricsResult := fun _ => .ok () }
      sampleClient).1.configDigest = "digest-b" :=
  (reload_counter_only_successful _ sampleClient).2.1 sampleConfig
    "digest-b" 2 rfl rfl (by decide) rfl rfl

/-- C6: an `ExportSpans` call on the stats-wrapped trace exporter with a
batch of `k` spans leaves the dropped counter and the last-error slot
untouched when the inner export succeeds; when it fails, the dropped counter
grows by exactly `k`, the last-error slot holds the new failure's message and
timestamp (overwriting any earlier failure), and the wrapped failure is
returned to the caller. -/
theorem exportSpans_stats_update (stats : TraceExporterStats) (k : ℕ)
    (now : ℤ) :
    exportSpans stats k none now = (stats, none) ∧
    (∀ msg,
      (exportSpans stats k (some msg) now).1.dropped =
        stats.dropped + (k : ℤ) ∧
      (exportSpans stats k (some msg) now).1.lastError =
        some ⟨msg, now⟩ ∧
      (exportSpans stats k (some msg) now).2 =
        some ("export spans: " ++ msg)) := by
  refine ⟨rfl, ?_⟩
  intro msg
  by_cases hk : k = 0
  · subst hk
    simp [exportSpans, recordDrop, recordError]
  · have hpos : ¬ ((k : ℤ) ≤ 0) := by
      simp only [not_le]
      exact_mod_cast Nat.pos_of_ne_zero hk
    simp [exportSpans, recordDrop, recordError, hpos]

/-- C7: `exporterBundle.shutdown` attempts the metric reader, the metric
exporter, and the trace exporter in exactly that order, attempts every one of
them regardless of which ones fail, and returns the join of all collected
errors. -/
theorem bundleShutdown_all_in_order (b : BundleShutdownEnv)
    (hr : b.metricReaderPresent = true)
    (hm : b.metricExporterPresent = true)
    (ht : b.traceExporterPresent = true) :
    (bundleShutdown b).1 =
      [BundleResource.metricReader, BundleResource.metricExporter,
       BundleResource.traceExporter] ∧
    (bundleShutdown b).2 =
      b.metricReaderErr.toList ++ b.metricExporterErr.toList ++
        b.traceExporterErr.toList ∧
    bundleShutdownError b =
      joinErrors (b.metricReaderErr.toList ++ b.metricExporterErr.toList ++
        b.traceExporterErr.toList) := by
  refine ⟨?_, ?_, ?_⟩ <;>
    simp [bundleShutdown, bundleShutdownError, hr, hm, ht]

/-- Witness for C7: with all three sub-resources present and all three
failing, every one is still attempted in order and all three errors are
collected, not only the first. -/
theorem bundleShutdown_all_in_order_witness :
    (bundleShutdown
      { metricReaderPresent := true, metricReaderErr := some "reader boom",
        metricExporterPresent := true, metricExporterErr := some "metric boom",
        traceExporterPresent := true,
        traceExporterErr := some "trace boom" }).1 =
      [BundleResource.metricReader, BundleResource.metricExporter,
       BundleResource.traceExporter] ∧
    (bundleShutdown
      { metricReaderPresent := true, metricReaderErr := some "reader boom",
        metricExporterPresent := true, metricExporterErr := some "metric boom",
        traceExporterPresent := true,
        traceExporterErr := some "trace boom" }).2 =
      ["reader boom", "metric boom", "trace boom"] := by
  have h := bundleShutdown_all_in_order
    { metricReaderPresent := true, metricReaderErr := some "reader boom",
      metricExporterPresent := true, metricExporterErr := some "metric boom",
      traceExporterPresent := true, traceExporterErr := some "trace boom" }
    rfl rfl rfl
  exact ⟨h.1, h.2.1⟩

/-- C4: `Runtime.Shutdown` is idempotent — the first call shuts down every
owned sub-resource exactly once and marks the runtime shut down; any call on
an already-shut-down runtime (as after the lifecycle manager retired the
instance) changes nothing, attempts no sub-resource shutdown, and returns no
error. -/
theorem runtimeShutdown_idempotent (env env2 : RuntimeShutdownEnv)
    (r : Runtime) :
    (r.onceDone = false →
      (∀ res : RuntimeResource,
        ((runtimeShutdown env r).2.2).count res =
          if ownsResource r res then 1 else 0) ∧
      (runtimeShutdown env r).1.onceDone = true ∧
      (runtimeShutdown env r).1.shutdownFlag = true) ∧
    runtimeShutdown env2 (runtimeShutdown env r).1 =
      ((runtimeShutdown env r).1, none, []) := by
  constructor
  · intro honce
    refine ⟨?_, ?_, ?_⟩
    · intro res
      cases res <;>
        cases h1 : r.hasTracerProvider <;>
        cases h2 : r.hasMeterProvider <;>
        cases h3 : r.exporters.isSome <;>
        cases h4 : r.metricsController <;>
        cases h5 : r.diagServer <;>
          simp [runtimeShutdown, ownsResource, honce, h1, h2, h3, h4, h5,
                List.count_cons, List.count_nil]
    · simp [runtimeShutdown, honce]
    · simp [runtimeShutdown, honce]
  · by_cases hc : r.onceDone = true
    · simp [runtimeShutdown, hc]
    · simp [runtimeShutdown, hc]

/-- Witness for C4: a runtime owning every sub-resource is shut down once,
each resource attempted exactly once; the repeated call is a silent no-op. -/
theorem runtimeShutdown_idempotent_witness :
    ((runtimeShutdown
        { tracerErr := none, meterErr := some "meter boom",
          exportersErr := none, metricsErr := none, diagErr := none }
        sampleRuntime).2.2).count RuntimeResource.meterProvider = 1 ∧
    runtimeShutdown
        { tracerErr := none, meterErr := none, exportersErr := none,
          metricsErr := none, diagErr := none }
        (runtimeShutdown
          { tracerErr := none, meterErr := some "meter boom",
            exportersErr := none, metricsErr := none, diagErr := none }
          sampleRuntime).1 =
      ((runtimeShutdown
          { tracerErr := none, meterErr := some "meter boom",
            exportersErr := none, metricsErr := none, diagErr := none }
          sampleRuntime).1, none, []) := by
  have h := runtimeShutdown_idempotent
    { tracerErr := none, meterErr := some "meter boom",
      exportersErr := none, metricsErr := none, diagErr := none }
    { tracerErr := none, meterErr := none, exportersErr := none,
      metricsErr := none, diagErr := none }
    sampleRuntime
  refine ⟨?_, h.2⟩
  have hcount := (h.1 (by rfl)).1 RuntimeResource.meterProvider
  rw [hcount]
  simp [sampleRuntime, ownsResource]

/-- C5 counterexample: the claim lists `parent_based_always_on` and
`parent_based_always_off` as accepted sampling modes, but
`samplerFromConfig` spells the parent-based modes without an underscore
between "parent" and "based"; the underscored spellings fall into the
default case and construction fails. -/
theorem samplerFromConfig_parent_based_rejected :
    samplerFromConfig { mode := "parent_based_always_on", argument := 1 } =
      .error "unsupported sampling mode" ∧
    samplerFromConfig { mode := "parent_based_always_off", argument := 1 } =
      .error "unsupported sampling mode" := by
  constructor <;> rfl

/-- C5 (amended): sampler construction succeeds for the modes `always_on`,
`always_off`, `parentbased_always_on`, `parentbased_always_off` (the code's
spelling of the parent-based modes), and for `trace_id_ratio` with a ratio
argument strictly in `(0,1]`; for `trace_id_ratio` with an argument outside
`(0,1]` (for example 0) it fails with a configuration error. -/
theorem samplerFromConfig_modes (a : ℚ) :
    samplerFromConfig { mode := "always_on", argument := a } =
      .ok .alwaysOn ∧
    samplerFromConfig { mode := "always_off", argument := a } =
      .ok .alwaysOff ∧
    samplerFromConfig { mode := "parentbased_always_on", argument := a } =
      .ok (.parentBased .alwaysOn) ∧
    samplerFromConfig { mode := "parentbased_always_off", argument := a } =
      .ok (.parentBased .alwaysOff) ∧
    (0 < a → a ≤ 1 →
      samplerFromConfig { mode := "trace_id_ratio", argument := a } =
        .ok (.parentBased (.traceIDRatioBased a))) ∧
    (a ≤ 0 ∨ 1 < a →
      samplerFromConfig { mode := "trace_id_ratio", argument := a } =
        .error "sampling.argument must be within (0,1]") := by
  refine ⟨rfl, rfl, rfl, rfl, ?_, ?_⟩
  · intro h1 h2
    have hcond : ¬ (a ≤ 0 ∨ 1 < a) := by
      push_neg
      exact ⟨h1, h2⟩
    simp [samplerFromConfig, hcond]
  · intro h
    simp [samplerFromConfig, h]

/-- Witness for C5 (amended): ratio 1/4 is accepted, ratio 0 is rejected. -/
theorem samplerFromConfig_modes_witness :
    samplerFromConfig { mode := "trace_id_ratio", argument := 1/4 } =
      .ok (.parentBased (.traceIDRatioBased (1/4))) ∧
    samplerFromConfig { mode := "trace_id_ratio", argument := 0 } =
      .error "sampling.argument must be within (0,1]" :=
  ⟨(samplerFromConfig_modes (1/4)).2.2.2.2.1 (by norm_num) (by norm_num),
   (samplerFromConfig_modes 0).2.2.2.2.2 (Or.inl le_rfl)⟩

/-- Auxiliary: the HTTP step never touches the start / last-reload clocks. -/
theorem newHTTPStep_clock (env : NewEnv) (cfg : Config) (rt rt' : Runtime)
    (eff : List NewEffect) (h : newHTTPStep env cfg rt = (.ok rt', eff)) :
    rt'.startTime = rt.startTime ∧ rt'.lastReload = rt.lastReload := by
  unfold newHTTPStep at h
  cases hh : cfg.instrumentation.httpEnabled <;>
    rcases hr : env.httpResult with e | u <;>
      simp [hh, hr] at h <;> simp [← h.1]

/-- Auxiliary: the gRPC step never touches the start / last-reload clocks. -/
theorem newGRPCStep_clock (cfg : Config) (rt : Runtime) :
    (newGRPCStep cfg rt).1.startTime = rt.startTime ∧
    (newGRPCStep cfg rt).1.lastReload = rt.lastReload := by
  unfold newGRPCStep
  cases hh : cfg.instrumentation.grpcEnabled <;> simp [hh]

/-- Auxiliary: the SQL step never touches the start / last-reload clocks. -/
theorem newSQLStep_clock (cfg : Config) (rt : Runtime) :
    (newSQLStep cfg rt).1.startTime = rt.startTime ∧
    (newSQLStep cfg rt).1.lastReload = rt.lastReload := by
  unfold newSQLStep
  cases hh : cfg.instrumentation.sqlEnabled <;> simp [hh]

/-- Auxiliary: the messaging step never touches the start / last-reload
clocks. -/
theorem newMessagingStep_clock (env : NewEnv) (cfg : Config)
    (rt rt' : Runtime) (eff : List NewEffect)
    (h : newMessagingStep env cfg rt = (.ok rt', eff)) :
    rt'.startTime = rt.startTime ∧ rt'.lastReload = rt.lastReload := by
  unfold newMessagingStep at h
  cases hh : cfg.instrumentation.messagingEnabled <;>
    rcases hr : env.messagingResult with e | u <;>
      simp [hh, hr] at h <;> simp [← h.1]

/-- Auxiliary: the worker step never touches the start / last-reload
clocks. -/
theorem newWorkerStep_clock (env : NewEnv) (cfg : Config) (rt rt' : Runtime)
    (eff : List NewEffect) (h : newWorkerStep env cfg rt = (.ok rt', eff)) :
    rt'.startTime = rt.startTime ∧ rt'.lastReload = rt.lastReload := by
  unfold newWorkerStep at h
  cases hh : cfg.instrumentation.workerEnabled <;>
    rcases hr : env.workerResult with e | u <;>
      simp [hh, hr] at h <;> simp [← h.1]

/-- Auxiliary: the diagnostics step never touches the start / last-reload
clocks. -/
theorem newDiagStep_clock (env : NewEnv) (cfg : Config) (rt rt' : Runtime)
    (eff : List NewEffect) (h : newDiagStep env cfg rt = (.ok rt', eff)) :
    rt'.startTime = rt.startTime ∧ rt'.lastReload = rt.lastReload := by
  unfold newDiagStep at h
  cases hh : cfg.diagnosticsEnabled <;>
    rcases hr : env.diagResult with e | u <;>
      simp [hh, hr] at h <;> simp [← h.1]

/-- Auxiliary: every runtime `runtime.New` successfully builds carries
`startTime = lastReload = now`. -/
theorem runtimeNewAfterGlobals_clock (env : NewEnv) (cfg : Config)
    (bundle : RuntimeExporterBundle) (rt : Runtime)
    (h : (runtimeNewAfterGlobals env cfg bundle).1 = .ok rt) :
    rt.startTime = env.now ∧ rt.lastReload = env.now := by
  simp only [runtimeNewAfterGlobals] at h
  rcases hH : newHTTPStep env cfg (newRuntimeRecord env cfg bundle)
    with ⟨resH, effH⟩
  rcases resH with e | rt1
  · rw [hH] at h
    simp at h
  rw [hH] at h
  simp only [] at h
  have hc1 := newHTTPStep_clock env cfg _ rt1 effH hH
  have hc2 := newGRPCStep_clock cfg rt1
  have hc3 := newSQLStep_clock cfg (newGRPCStep cfg rt1).1
  rcases hM : newMessagingStep env cfg
      (newSQLStep cfg (newGRPCStep cfg rt1).1).1 with ⟨resM, effM⟩
  rcases resM with e | rt4
  · rw [hM] at h
    simp at h
  rw [hM] at h
  simp only [] at h
  have hc4 := newMessagingStep_clock env cfg _ rt4 effM hM
  rcases hW : newWorkerStep env cfg rt4 with ⟨resW, effW⟩
  rcases resW with e | rt5
  · rw [hW] at h
    simp at h
  rw [hW] at h
  simp only [] at h
  have hc5 := newWorkerStep_clock env cfg rt4 rt5 effW hW
  rcases hD : newDiagStep env cfg rt5 with ⟨resD, effD⟩
  rcases resD with e | rt6
  · rw [hD] at h
    simp at h
  rw [hD] at h
  simp only [] at h
  have hc6 := newDiagStep_clock env cfg rt5 rt6 effD hD
  simp at h
  subst h
  simp [newRuntimeRecord] at hc1
  constructor
  · rw [hc6.1, hc5.1, hc4.1, hc3.1, hc2.1, hc1.1]
  · rw [hc6.2, hc5.2, hc4.2, hc3.2, hc2.2, hc1.2]

/-- C9: `runtime.New` registers the freshly built tracer and meter providers
as process-wide defaults immediately after the provider builds succeed and
before any instrumentation helper or diagnostics step runs; hence a
construction attempt failing at a later step — which, per the reload path,
leaves the lifecycle manager's current runtime reference untouched — has
already replaced the global default providers. -/
theorem runtimeNew_globals_before_later_steps (env : NewEnv) (cfg : Config)
    (bundle : RuntimeExporterBundle) (smp : Sampler)
    (hexp : env.exportersResult = .ok bundle)
    (hres : env.resourceResult = .ok ())
    (hsmp : samplerFromConfig cfg.sampling = .ok smp) :
    List.IsPrefix
      [NewEffect.buildExporters, NewEffect.buildResource,
       NewEffect.buildTracerProvider, NewEffect.buildMeterProvider,
       NewEffect.setGlobalTracerProvider, NewEffect.setGlobalMeterProvider]
      (runtimeNew env cfg).2 ∧
    NewEffect.setGlobalTracerProvider ∈ (runtimeNew env cfg).2 ∧
    NewEffect.setGlobalMeterProvider ∈ (runtimeNew env cfg).2 ∧
    (∀ (renv : ReloadEnv) (s : ClientState) (cfg2 : Config) (d : String)
       (e : String),
      renv.loadResult = .ok cfg2 → renv.digestResult cfg2 = .ok d →
      renv.newResult cfg2 = .error e →
      (reloadRuntime renv s).1.runtime = s.runtime) := by
  have heff : (runtimeNew env cfg).2 =
      [NewEffect.buildExporters, NewEffect.buildResource,
       NewEffect.buildTracerProvider, NewEffect.buildMeterProvider,
       NewEffect.setGlobalTracerProvider,
       NewEffect.setGlobalMeterProvider] ++
      (runtimeNewAfterGlobals env cfg bundle).2 := by
    simp [runtimeNew, hexp, hres, hsmp]
  refine ⟨?_, ?_, ?_, ?_⟩
  · rw [heff]
    exact ⟨(runtimeNewAfterGlobals env cfg bundle).2, rfl⟩
  · rw [heff]
    simp
  · rw [heff]
    simp
  · intro renv s cfg2 d e hl hd hn
    by_cases hdd : d = s.configDigest
    · simp [reloadRuntime, hl, hd, hdd]
    · cases henv : renv.loggerOverride <;>
        cases hlg : renv.loggerFromConfig cfg2 <;>
          simp [reloadRuntime, hl, hd, hdd, hn, henv, hlg]

/-- A concrete construction environment whose diagnostics step fails after
the globals have been registered. -/
def sampleNewEnvDiagFail : NewEnv :=
  { exportersResult := .ok { traceStats := some sampleTraceStats },
    resourceResult := .ok (), httpResult := .ok (),
    messagingResult := .ok (), workerResult := .ok (),
    diagResult := .error "bind boom", now := 50 }

/-- A concrete configuration with diagnostics enabled. -/
def sampleConfigDiag : Config :=
  { sampleConfig with diagnosticsEnabled := true }

/-- Witness for C9: with the diagnostics listener failing to bind, the
construction fails, yet both global-provider registrations are in the
performed steps. -/
theorem runtimeNew_globals_before_later_steps_witness :
    NewEffect.setGlobalTracerProvider ∈
      (runtimeNew sampleNewEnvDiagFail sampleConfigDiag).2 ∧
    NewEffect.setGlobalMeterProvider ∈
      (runtimeNew sampleNewEnvDiagFail sampleConfigDiag).2 := by
  have h := runtimeNew_globals_before_later_steps sampleNewEnvDiagFail
    sampleConfigDiag { traceStats := some sampleTraceStats }
    Sampler.alwaysOn rfl rfl rfl
  exact ⟨h.2.1, h.2.2.1⟩

/-- C10: every runtime built by `runtime.New` has its last-reload time set to
its start time at construction, and neither `InitMetrics` nor `Shutdown`
updates either clock, so every diagnostics snapshot of such a runtime
satisfies `LastReloadTime == StartTime`. -/
theorem snapshot_lastReload_equals_start (env : NewEnv) (cfg : Config)
    (rt : Runtime) (h : (runtimeNew env cfg).1 = .ok rt) :
    (runtimeSnapshot rt).lastReloadTime = (runtimeSnapshot rt).startTime ∧
    (∀ (reloads : ℤ) (startRes : Except String Unit) (rt2 : Runtime),
      initMetrics rt reloads startRes = .ok rt2 →
      (runtimeSnapshot rt2).lastReloadTime =
        (runtimeSnapshot rt2).startTime) ∧
    (∀ senv : RuntimeShutdownEnv,
      (runtimeSnapshot (runtimeShutdown senv rt).1).lastReloadTime =
        (runtimeSnapshot (runtimeShutdown senv rt).1).startTime) := by
  rcases hexp : env.exportersResult with e | bundle
  · unfold runtimeNew at h
    rw [hexp] at h
    simp at h
  rcases hres : env.resourceResult with e | u
  · unfold runtimeNew at h
    rw [hexp, hres] at h
    simp at h
  rcases hsmp : samplerFromConfig cfg.sampling with e | smp
  · unfold runtimeNew at h
    rw [hexp, hres, hsmp] at h
    simp at h
  have hAG : (runtimeNewAfterGlobals env cfg bundle).1 = .ok rt := by
    unfold runtimeNew at h
    rw [hexp, hres, hsmp] at h
    simpa using h
  have hclock := runtimeNewAfterGlobals_clock env cfg bundle rt hAG
  have hbase : rt.lastReload = rt.startTime := by
    rw [hclock.1, hclock.2]
  refine ⟨?_, ?_, ?_⟩
  · simpa [runtimeSnapshot] using hbase
  · intro reloads startRes rt2 h2
    unfold initMetrics at h2
    cases hm : rt.cfg.instrumentation.runtimeMetricsEnabled <;>
      rcases hsr : startRes with e2 | u2 <;>
        simp [hm, hsr] at h2 <;>
          simp [runtimeSnapshot, ← h2, hbase]
  · intro senv
    by_cases hod : rt.onceDone = true <;>
      simp [runtimeShutdown, runtimeSnapshot, hod, hbase]

/-- A concrete configuration with every optional module disabled. -/
def samplePlainConfig : Config :=
  { sampleConfig with
    instrumentation :=
      { httpEnabled := false, grpcEnabled := false, sqlEnabled := false,
        messagingEnabled := false, workerEnabled := false,
        runtimeMetricsEnabled := false },
    diagnosticsEnabled := false }

/-- A concrete construction environment in which every step succeeds. -/
def sampleNewEnvOk : NewEnv :=
  { sampleNewEnvDiagFail with diagResult := .ok () }

/-- Witness for C10 at a concrete successful construction. -/
theorem snapshot_lastReload_equals_start_witness :
    (runtimeSnapshot (newRuntimeRecord sampleNewEnvOk samplePlainConfig
        { traceStats := some sampleTraceStats })).lastReloadTime =
      (runtimeSnapshot (newRuntimeRecord sampleNewEnvOk samplePlainConfig
        { traceStats := some sampleTraceStats })).startTime := by
  have h := snapshot_lastReload_equals_start sampleNewEnvOk samplePlainConfig
    (newRuntimeRecord sampleNewEnvOk samplePlainConfig
      { traceStats := some sampleTraceStats })
    (by rfl)
  exact h.1

/-- Auxiliary: while the timer is armed at `t0 + d` and every further event
of the burst arrives before the previously armed deadline, no reload fires
during the burst and the timer ends up armed at `d` past the last event. -/
theorem watchEvents_burst (d : ℤ) (hd : 0 < d) (ts : List ℤ) :
    ∀ t0 : ℤ, List.Chain (fun a b => a ≤ b ∧ b < a + d) t0 ts →
      watchEvents d { pending := true, deadline := t0 + d } ts =
        ({ pending := true,
           deadline := (t0 :: ts).getLast (List.cons_ne_nil t0 ts) + d },
         []) := by
  induction ts with
  | nil =>
    intro t0 _
    simp [watchEvents]
  | cons t1 ts ih =>
    intro t0 h
    rw [List.chain_cons] at h
    obtain ⟨⟨hle, hlt⟩, hchain⟩ := h
    have hstep : watchStep d { pending := true, deadline := t0 + d } t1 =
        ({ pending := true, deadline := t1 + d }, []) := by
      have hnf : ¬ (t0 + d ≤ t1) := by omega
      have hdpos : ¬ d ≤ 0 := by omega
      simp [watchStep, hnf, hdpos]
    simp only [watchEvents, hstep]
    rw [ih t1 hchain]
    simp [List.getLast_cons]

/-- Auxiliary: with a non-positive debounce the loop never arms the timer
and fires one immediate reload per event. -/
theorem watchEvents_immediate (d : ℤ) (hd : d ≤ 0) (evs : List ℤ) :
    ∀ s : WatchState, s.pending = false → watchEvents d s evs = (s, evs) := by
  induction evs with
  | nil =>
    intro s _
    simp [watchEvents]
  | cons t ts ih =>
    intro s hp
    have hnf : ¬ (s.pending = true ∧ s.deadline ≤ t) := by
      rintro ⟨hc, -⟩
      rw [hp] at hc
      exact Bool.false_ne_true hc
    have hstep : watchStep d s t = (s, [t]) := by
      simp [watchStep, hnf, hd]
    simp only [watchEvents, hstep]
    rw [ih s hp]
    simp

/-- C3: with a positive debounce duration, a burst of `N >= 1` relevant
events in which each event arrives before the deadline armed by the previous
one triggers exactly one reload attempt, and that attempt begins exactly at
the debounce duration past the last event of the burst (hence no earlier);
with a non-positive debounce duration, every relevant event triggers an
immediate reload. -/
theorem watchLoop_debounce (d t0 : ℤ) (ts : List ℤ) (hd : 0 < d)
    (hburst : List.Chain (fun a b => a ≤ b ∧ b < a + d) t0 ts) :
    watchLoop d (t0 :: ts) =
      [(t0 :: ts).getLast (List.cons_ne_nil t0 ts) + d] ∧
    (watchLoop d (t0 :: ts)).length = 1 ∧
    (∀ x ∈ watchLoop d (t0 :: ts),
      (t0 :: ts).getLast (List.cons_ne_nil t0 ts) + d ≤ x) ∧
    (∀ (d2 : ℤ) (evs : List ℤ), d2 ≤ 0 → watchLoop d2 evs = evs) := by
  have hstep0 : watchStep d { pending := false, deadline := 0 } t0 =
      ({ pending := true, deadline := t0 + d }, []) := by
    have hnf : ¬ ((false : Bool) = true ∧ (0 : ℤ) ≤ t0) := by
      rintro ⟨hc, -⟩
      exact Bool.false_ne_true hc
    have hdpos : ¬ d ≤ 0 := by omega
    simp [watchStep, hnf, hdpos]
  have hrun : watchLoop d (t0 :: ts) =
      [(t0 :: ts).getLast (List.cons_ne_nil t0 ts) + d] := by
    unfold watchLoop
    simp only [watchEvents, hstep0]
    rw [watchEvents_burst d hd ts t0 hburst]
    simp
  refine ⟨hrun, ?_, ?_, ?_⟩
  · rw [hrun]
    rfl
  · intro x hx
    rw [hrun] at hx
    simp at hx
    omega
  · intro d2 evs hd2
    unfold watchLoop
    rw [watchEvents_immediate d2 hd2 evs { pending := false, deadline := 0 }
      rfl]
    simp

/-- Witness for C3: a burst of three events at times 0, 10, 15 under a
debounce of 25 produces exactly one reload, at time 15 + 25 = 40; with a
zero debounce the same events each fire immediately. -/
theorem watchLoop_debounce_witness :
    watchLoop 25 [0, 10, 15] = [40] ∧
    watchLoop 0 [0, 10, 15] = [0, 10, 15] := by
  have h := watchLoop_debounce 25 0 [10, 15] (by norm_num)
    (by
      rw [List.chain_cons, List.chain_cons]
      refine ⟨⟨?_, ?_⟩, ⟨?_, ?_⟩, List.Chain.nil⟩ <;> norm_num)
  constructor
  · have h1 := h.1
    simpa using h1
  · exact h.2.2.2 0 [0, 10, 15] le_rfl

end Observe
